import Mathlib

/-!
# Verification of the Cold Outreach Researcher agent

Shallow embedding of the repository's code and spec-modelled workflow core.

The repository snapshot contains the React frontend (`frontend/src/App.jsx`,
`frontend/src/api.js`) and the README.  The Python workflow core
(`src/main.py`, the LangGraph graph) is referenced by the README but is not
part of the snapshot, so the workflow-core definitions below are modelled from
the spec and are marked as such in their doc comments.

Frontend conventions of the embedding:
* React `useState` fields of `App` become the fields of `AppState`.
* An event handler becomes a function `AppState → AppState` giving the net
  effect of one invocation of the handler on the component state (the
  transient `status = running` value that `handleSubmit` sets before awaiting
  the backend is not observable in the final state of the handler and is
  represented by the `submitReset` intermediate step).
* The awaited backend call inside `handleSubmit` is a parameter: the handler
  takes the outcome of `await runAgent(form)` — either a parsed body or the
  `.message` string of the caught error.
* JavaScript string truthiness (`!s`, `a || b`) is translated explicitly:
  a string is falsy exactly when it is `""`.
-/

namespace ResearcherAgent

/-- The four values `App` ever passes to `setStatus`, which are also the keys
of the `StatusPill` palette: `idle`, `running`, `ready`, `sent`. -/
inductive Status where
  | idle
  | running
  | ready
  | sent
deriving DecidableEq, Repr

/-- The controlled form state of `App` (`initialForm` shape). -/
structure Form where
  company : String
  url : String
  provider : String
  model : String
deriving DecidableEq, Repr

/-- `initialForm` from `App.jsx`. -/
def initialForm : Form :=
  { company := ("Acme Corp"), url := (""), provider := ("openai"),
    model := ("gpt-4o-mini") }

/-- The `useState` fields of the `App` component. -/
structure AppState where
  form : Form
  logLines : List String
  summary : String
  emailDraft : String
  status : Status
  error : String
  sendMessage : String
  isSubmitting : Bool
deriving DecidableEq, Repr

/-- The initial component state: every `useState` initialiser in `App`. -/
def initialAppState : AppState :=
  { form := initialForm, logLines := [], summary := (""), emailDraft := (""),
    status := Status.idle, error := (""), sendMessage := (""),
    isSubmitting := false }

/-- The parsed JSON body of a backend response, restricted to the fields the
frontend ever reads: `log`, `summary`, `email_draft` on the success path of
`handleSubmit`, and `detail` on the error path of `runAgent`.  A field absent
from (or `null` in) the JSON object is `none`. -/
structure ParsedBody where
  log : Option (List String)
  summary : Option String
  email_draft : Option String
  detail : Option String
deriving DecidableEq, Repr

/-- A `fetch` response as `runAgent` inspects it: the `ok` flag and the result
of `response.json()` — `none` when the body does not parse as JSON. -/
structure Response where
  ok : Bool
  body : Option ParsedBody
deriving DecidableEq, Repr

/-- How `runAgent` can fail: `throw new Error(detail)` on a non-ok response,
or the rejection of `response.json()` on an ok response whose body is not
JSON. -/
inductive RunAgentError where
  | thrown (message : String)
  | jsonRejected
deriving DecidableEq, Repr

/-- `runAgent` from `frontend/src/api.js`: on an ok response it returns the
parsed JSON body; otherwise it computes `detail` (starting from the fixed
fallback, replaced by `data.detail` when the body parses and that field is
truthy — i.e. a non-empty string) and throws `Error(detail)`. -/
def runAgent (resp : Response) : Except RunAgentError ParsedBody :=
  if resp.ok then
    match resp.body with
    | some data => Except.ok data
    | none => Except.error RunAgentError.jsonRejected
  else
    let fallback := ("Failed to reach agent.")
    let detail :=
      match resp.body with
      | some data =>
        match data.detail with
        | some d => if d = ("") then fallback else d
        | none => fallback
      | none => fallback
    Except.error (RunAgentError.thrown detail)

/-- The synchronous reset block at the top of `handleSubmit`
(`setIsSubmitting(true); setError(""); setStatus("running");
setSendMessage(""); setSummary(""); setEmailDraft(""); setLogLines([])`). -/
def submitReset (s : AppState) : AppState :=
  { s with isSubmitting := true, error := (""), status := Status.running,
           sendMessage := (""), summary := (""), emailDraft := (""),
           logLines := [] }

/-- `handleSubmit` from `App.jsx`, as the net effect of one invocation on the
component state.  `outcome` is what `await runAgent(form)` produced: a parsed
body, or the `.message` of the caught error.  The `try` branch stores
`result.log || []`, `result.summary || ""`, `result.email_draft || ""` and
status `ready`; the `catch` branch stores `err.message || "Failed to run
agent."` and status `idle`; the `finally` branch clears `isSubmitting`. -/
def handleSubmit (outcome : Except String ParsedBody) (s : AppState) :
    AppState :=
  let s1 := submitReset s
  let s2 :=
    match outcome with
    | Except.ok result =>
      { s1 with logLines := result.log.getD [],
                summary := result.summary.getD (""),
                emailDraft := (result.email_draft).getD (""),
                status := Status.ready }
    | Except.error msg =>
      { s1 with error := if msg = ("") then ("Failed to run agent.") else msg,
                status := Status.idle }
  { s2 with isSubmitting := false }

/-- JavaScript `String.prototype.trim`, modelled on the character list of the
string: drop leading and trailing whitespace (whitespace per
`Char.isWhitespace`, covering space, tab, CR and LF). -/
def jsTrim (s : String) : String :=
  String.mk
    (((s.data.dropWhile Char.isWhitespace).reverse.dropWhile
        Char.isWhitespace).reverse)

/-- `handleSend` from `App.jsx`: if `emailDraft.trim()` is empty it only sets
the informational message and returns; otherwise it sets the mock-send
message and moves the status to `sent`. -/
def handleSend (s : AppState) : AppState :=
  if jsTrim s.emailDraft = ("") then
    { s with sendMessage := ("Nothing to send—please run the agent first.") }
  else
    { s with sendMessage := ("Mock send complete. (Hook your email API here.)"),
             status := Status.sent }

/-- `handleDownload` from `App.jsx` updates no React state: it either returns
early or performs only DOM/Blob side effects, so on the component state it is
the identity. -/
def handleDownload (s : AppState) : AppState := s

/-- `handleChange` from `App.jsx`: `setForm(prev => ({...prev, [name]:
value}))`.  The only `name` attributes occurring in the form are `company`,
`url`, `provider` and `model`. -/
def setFormField (f : Form) (name value : String) : Form :=
  if name = ("company") then { f with company := value }
  else if name = ("url") then { f with url := value }
  else if name = ("provider") then { f with provider := value }
  else if name = ("model") then { f with model := value }
  else f

/-- The user-driven operations on the `App` state: submitting the form (with
the outcome of the awaited backend call), clicking "Approve & mock send",
clicking "Download", editing the email-draft textarea, editing a form field,
and the "Reset" button. -/
inductive Op where
  | submit (outcome : Except String ParsedBody)
  | send
  | download
  | editDraft (t : String)
  | change (name value : String)
  | reset

/-- One operation applied to the component state. -/
def applyOp : Op → AppState → AppState
  | Op.submit outcome, s => handleSubmit outcome s
  | Op.send, s => handleSend s
  | Op.download, s => handleDownload s
  | Op.editDraft t, s => { s with emailDraft := t }
  | Op.change n v, s => { s with form := setFormField s.form n v }
  | Op.reset, s => { s with form := initialForm }

/-- A sequence of operations applied left to right. -/
def runOps (ops : List Op) (s : AppState) : AppState :=
  ops.foldl (fun st op => applyOp op st) s

theorem runOps_append (l : List Op) (op : Op) (s : AppState) :
    runOps (l ++ [op]) s = applyOp op (runOps l s) := by
  simp [runOps, List.foldl_append]

/-- `handleSubmit` always leaves the status `ready` or `idle`. -/
theorem handleSubmit_status (o : Except String ParsedBody) (s : AppState) :
    (handleSubmit o s).status = Status.ready ∨
    (handleSubmit o s).status = Status.idle := by
  cases o <;> simp [handleSubmit, submitReset]

/-- `handleSend` on an empty (after trim) draft only sets the message. -/
theorem handleSend_empty (s : AppState) (h : jsTrim s.emailDraft = ("")) :
    handleSend s =
      { s with sendMessage := ("Nothing to send—please run the agent first.") } := by
  simp [handleSend, h]

/-- `handleSend` on a non-empty (after trim) draft performs the mock send. -/
theorem handleSend_nonempty (s : AppState) (h : jsTrim s.emailDraft ≠ ("")) :
    handleSend s =
      { s with sendMessage := ("Mock send complete. (Hook your email API here.)"),
               status := Status.sent } := by
  simp [handleSend, h]

/-- **C1**: the status `sent` is reached only after an explicit affirmative
approval action (a click on "Approve & mock send", i.e. an `Op.send`) taken
while a non-empty (after trim) email draft was present; no sequence of
operations (submit, send, download, edit, change, reset) starting from the
initial state reaches `sent` without such a send having been applied. -/
theorem sent_requires_send_with_draft (ops : List Op)
    (h : (runOps ops initialAppState).status = Status.sent) :
    ∃ pre post, ops = pre ++ Op.send :: post ∧
      jsTrim (runOps pre initialAppState).emailDraft ≠ ("") := by
  induction ops using List.reverseRecOn with
  | nil => simp [runOps, initialAppState] at h
  | append_singleton l op ih =>
    rw [runOps_append] at h
    cases op with
    | submit o =>
      simp only [applyOp] at h
      rcases handleSubmit_status o (runOps l initialAppState) with h2 | h2 <;>
        rw [h2] at h <;> simp at h
    | send =>
      simp only [applyOp] at h
      by_cases hd : jsTrim (runOps l initialAppState).emailDraft = ("")
      · rw [handleSend_empty _ hd] at h
        simp only [] at h
        obtain ⟨pre, post, hsplit, hne⟩ := ih h
        exact ⟨pre, post ++ [Op.send], by rw [hsplit]; simp, hne⟩
      · exact ⟨l, [], rfl, hd⟩
    | download =>
      simp only [applyOp, handleDownload] at h
      obtain ⟨pre, post, hsplit, hne⟩ := ih h
      exact ⟨pre, post ++ [Op.download], by rw [hsplit]; simp, hne⟩
    | editDraft t =>
      simp only [applyOp] at h
      obtain ⟨pre, post, hsplit, hne⟩ := ih h
      exact ⟨pre, post ++ [Op.editDraft t], by rw [hsplit]; simp, hne⟩
    | change n v =>
      simp only [applyOp] at h
      obtain ⟨pre, post, hsplit, hne⟩ := ih h
      exact ⟨pre, post ++ [Op.change n v], by rw [hsplit]; simp, hne⟩
    | reset =>
      simp only [applyOp] at h
      obtain ⟨pre, post, hsplit, hne⟩ := ih h
      exact ⟨pre, post ++ [Op.reset], by rw [hsplit]; simp, hne⟩

/-- A concrete successful backend body used to exercise the theorems. -/
def okBodyEx : ParsedBody :=
  { log := some [("Searching for company news...")],
    summary := some ("A short summary."),
    email_draft := some ("Hello Acme team,"), detail := none }

/-- A concrete operation sequence: one successful submit then a send. -/
def opsEx : List Op := [Op.submit (Except.ok okBodyEx), Op.send]

/-- Witness for C1: the sequence `opsEx` does reach `sent`, and the theorem
produces the send-with-non-empty-draft decomposition. -/
theorem sent_requires_send_with_draft_witness :
    ∃ pre post, opsEx = pre ++ Op.send :: post ∧
      jsTrim (runOps pre initialAppState).emailDraft ≠ ("") :=
  sent_requires_send_with_draft opsEx (by decide)

/-- **C4**: send is idempotent — invoking `handleSend` a second time yields
exactly the state produced by the first invocation (in particular for a run
already in `sent`), and `handleSend` never touches the trace log, so no
duplicate trace lines appear and no error is raised (`handleSend` is total). -/
theorem send_idempotent (s : AppState) :
    handleSend (handleSend s) = handleSend s ∧
    (handleSend s).logLines = s.logLines ∧
    (handleSend s).error = s.error := by
  by_cases h : jsTrim s.emailDraft = ("") <;> simp [handleSend, h]

/-- **C5**: editing the email-draft textarea replaces the drafted email
verbatim, and a subsequent send operates on the edited text (the state the
mock send acts on carries exactly the edited draft), not on any original
draft the state previously held. -/
theorem edited_draft_is_sent (s : AppState) (t : String)
    (h : jsTrim t ≠ ("")) :
    (applyOp (Op.editDraft t) s).emailDraft = t ∧
    (handleSend (applyOp (Op.editDraft t) s)).emailDraft = t ∧
    (handleSend (applyOp (Op.editDraft t) s)).status = Status.sent ∧
    (handleSend (applyOp (Op.editDraft t) s)).sendMessage =
      ("Mock send complete. (Hook your email API here.)") := by
  simp [applyOp, handleSend, h]

/-- Witness for C5 at a concrete state and edited text. -/
theorem edited_draft_is_sent_witness :
    (applyOp (Op.editDraft ("Hi Acme")) initialAppState).emailDraft =
      ("Hi Acme") ∧
    (handleSend (applyOp (Op.editDraft ("Hi Acme")) initialAppState)).emailDraft =
      ("Hi Acme") ∧
    (handleSend (applyOp (Op.editDraft ("Hi Acme")) initialAppState)).status =
      Status.sent ∧
    (handleSend (applyOp (Op.editDraft ("Hi Acme")) initialAppState)).sendMessage =
      ("Mock send complete. (Hook your email API here.)") :=
  edited_draft_is_sent initialAppState ("Hi Acme") (by decide)

/-- **C8**: whatever error message the backend call fails with, one submit
invocation leaves the UI in the stable `idle` status with a non-empty,
human-readable error message and the submit button re-enabled; `handleSubmit`
is a total function of the outcome, so no raw exception escapes to the
caller. -/
theorem submit_failure_stable (s : AppState) (msg : String) :
    (handleSubmit (Except.error msg) s).status = Status.idle ∧
    (handleSubmit (Except.error msg) s).error ≠ ("") ∧
    (handleSubmit (Except.error msg) s).isSubmitting = false := by
  by_cases h : msg = ("") <;> simp [handleSubmit, submitReset, h]

/-- **C9**: invoking send while the email draft is empty or whitespace-only
leaves every field except the informational message unchanged — in
particular the status does not become `sent` — and sets the message telling
the operator to run the agent first. -/
theorem send_empty_draft_noop (s : AppState) (h : jsTrim s.emailDraft = ("")) :
    handleSend s =
      { s with sendMessage := ("Nothing to send—please run the agent first.") } ∧
    (handleSend s).status = s.status := by
  refine ⟨handleSend_empty s h, ?_⟩
  rw [handleSend_empty s h]

/-- Witness for C9 at the initial state, whose draft is empty. -/
theorem send_empty_draft_noop_witness :
    handleSend initialAppState =
      { initialAppState with
          sendMessage := ("Nothing to send—please run the agent first.") } ∧
    (handleSend initialAppState).status = initialAppState.status :=
  send_empty_draft_noop initialAppState (by decide)

/-- A non-ok response whose body parses as JSON and contains a `detail` field
holding the empty string. -/
def bodyEmptyDetail : ParsedBody :=
  { log := none, summary := none, email_draft := none, detail := some ("") }

/-- The non-ok response wrapping `bodyEmptyDetail`. -/
def respEmptyDetail : Response := { ok := false, body := some bodyEmptyDetail }

/-- **C10 counterexample**: the claim says the thrown message is the body's
`detail` field whenever the body parses as JSON and contains one.  At the
concrete non-ok response whose parsed body contains `detail = ""`, the code
throws the fixed fallback string instead of that `detail` value, because
`data.detail || detail` treats the empty string as falsy. -/
theorem runAgent_empty_detail_cex :
    respEmptyDetail.ok = false ∧
    respEmptyDetail.body = some bodyEmptyDetail ∧
    bodyEmptyDetail.detail = some ("") ∧
    runAgent respEmptyDetail =
      Except.error (RunAgentError.thrown ("Failed to reach agent.")) ∧
    runAgent respEmptyDetail ≠ Except.error (RunAgentError.thrown ("")) := by
  refine ⟨rfl, rfl, rfl, rfl, ?_⟩
  simp [runAgent, respEmptyDetail, bodyEmptyDetail]

/-- The error message the amended claim prescribes for a non-ok response: the
body's `detail` field when the body parses as JSON and that field is present
and non-empty, and the fixed fallback string otherwise. -/
def claimedMessage (resp : Response) : String :=
  match resp.body with
  | some b =>
    match b.detail with
    | some d => if d = ("") then ("Failed to reach agent.") else d
    | none => ("Failed to reach agent.")
  | none => ("Failed to reach agent.")

/-- **C10 (amended)**: `runAgent` returns the parsed JSON body exactly when
the response is ok and its body parses; on a non-ok response it throws an
`Error` whose message is the body's `detail` field when the body parses as
JSON and contains a *non-empty* `detail`, and the fixed string
"Failed to reach agent." otherwise (including when `detail` is present but
empty, which JavaScript `||` treats as absent). -/
theorem runAgent_amended (resp : Response) :
    (∀ b, resp.ok = true → resp.body = some b → runAgent resp = Except.ok b) ∧
    (resp.ok = false →
      runAgent resp = Except.error (RunAgentError.thrown (claimedMessage resp))) := by
  constructor
  · intro b hok hbody
    simp [runAgent, hok, hbody]
  · intro hok
    simp [runAgent, claimedMessage, hok]

/-- Witness for C10 (amended): an ok response returns its parsed body; a
non-ok response with a non-empty `detail` throws exactly that detail. -/
theorem runAgent_amended_witness :
    runAgent { ok := true, body := some okBodyEx } = Except.ok okBodyEx ∧
    runAgent { ok := false,
               body := some { log := none, summary := none,
                              email_draft := none, detail := some ("boom") } } =
      Except.error (RunAgentError.thrown ("boom")) := by
  constructor
  · exact (runAgent_amended { ok := true, body := some okBodyEx }).1
      okBodyEx rfl rfl
  · have h := (runAgent_amended
      { ok := false,
        body := some { log := none, summary := none,
                       email_draft := none, detail := some ("boom") } }).2 rfl
    simpa [claimedMessage] using h

/-- Modelled from the spec: the stage machine of §4.1 for the workflow core in
`src/main.py`, which is not part of the source snapshot —
`Idle → Searching → Scraping → Drafting → AwaitingApproval → Sending →
{Sent, Rejected, Failed}`. -/
inductive WStage where
  | idle
  | searching
  | scraping
  | drafting
  | awaitingApproval
  | sending
  | sent
  | rejected
  | failed
deriving DecidableEq, Repr

/-- Modelled from the spec §3: the terminal `outcome` enum of a
`WorkflowRun`. -/
inductive Outcome where
  | pending
  | approved
  | rejected
  | failed
deriving DecidableEq, Repr

/-- Modelled from the spec §7: the error taxonomy of the workflow core. -/
inductive ErrorKind where
  | searchUnavailable
  | fetchError
  | generationError
  | invalidInput
deriving DecidableEq, Repr

/-- Modelled from the spec §4.1: the input of a workflow run. -/
structure WorkflowInput where
  company : String
  url : Option String
  provider : String
  model : String
deriving DecidableEq, Repr

/-- Modelled from the spec §3: a `WorkflowRun` — input, current stage, the
`ResearchContext` (label/text pairs in insertion order), the derived summary
and email draft, the append-only trace log, the terminal outcome, and the
human-readable cause carried by a `Failed` run. -/
structure WorkflowRun where
  input : WorkflowInput
  stage : WStage
  context : List (String × String)
  summary : Option String
  emailDraft : Option String
  traceLog : List String
  outcome : Outcome
  failure : Option (ErrorKind × String)
deriving DecidableEq, Repr

/-- Modelled from the spec §6: one search result. -/
structure SearchResult where
  title : String
  snippet : String
  url : String
deriving DecidableEq, Repr

/-- Modelled from the spec §4.3: which of the two fixed-purpose queries a
search result set came from. -/
inductive QueryTag where
  | news
  | overview
deriving DecidableEq, Repr

/-- Modelled from the spec §6: the three capability interfaces the core
consumes, as deterministic oracles for one run — each call either yields its
value or fails with a human-readable message. -/
structure Capabilities where
  news : Except String (List SearchResult)
  overview : Except String (List SearchResult)
  fetchText : Except String String
  summarize : String → Except String String
  compose : String → Except String String

/-- Modelled from the spec §4.2/§9: the per-entry character budget of the
prompt renderer.  The README names the constant `MAX_TEXT_CHARS`; the spec
leaves the numeric value a policy choice, so the proofs below never depend
on it. -/
def MAX_TEXT_CHARS : Nat := 4000

/-- Concatenation of rendered entries with a blank line between them. -/
def promptJoin : List String → String
  | [] => ("")
  | [x] => x
  | x :: y :: xs => x ++ ("\n\n") ++ promptJoin (y :: xs)

/-- Modelled from the spec §4.2: `renderForPrompt` deterministically
concatenates the context entries in insertion order with label headers,
truncating each entry's text to the character budget. -/
def renderForPrompt (budget : Nat) (ctx : List (String × String)) : String :=
  promptJoin (ctx.map fun e => ("## ") ++ e.1 ++ ("\n") ++ e.2.take budget)

/-- Modelled from the spec §4.2: `append`, idempotent per label —
re-appending an existing label overwrites its text in place instead of
duplicating the entry. -/
def ctxAppend (ctx : List (String × String)) (label text : String) :
    List (String × String) :=
  if ctx.any fun e => e.1 = label then
    ctx.map fun e => if e.1 = label then (label, text) else e
  else ctx ++ [(label, text)]

/-- Modelled from the spec §4.3: the text a completed query contributes — an
explicit "no results" marker for an empty result set, otherwise the results
one per line. -/
def renderResults (rs : List SearchResult) : String :=
  match rs with
  | [] => ("(no results)")
  | _ =>
    promptJoin (rs.map fun r =>
      r.title ++ (": ") ++ r.snippet ++ (" (") ++ r.url ++ (")"))

/-- Modelled from the spec §5: the two search queries may complete in either
order; `arrivals` lists each completed query's tag and rendered text in
completion order, and the merge places all news-derived entries (under label
`search:news`) before all overview-derived entries (under label
`search:about`), regardless of arrival order. -/
def mergeSearchArrivals (arrivals : List (QueryTag × String)) :
    List (String × String) :=
  ((arrivals.filter fun a => a.1 = QueryTag.news).map
      fun a => (("search:news"), a.2)) ++
  ((arrivals.filter fun a => a.1 = QueryTag.overview).map
      fun a => (("search:about"), a.2))

/-- Modelled from the spec §4.3: the Search Stage issues the two queries and
appends their rendered results to the context in the fixed order news first,
overview second; a failed query is absorbed — logged as a trace line, the
stage continues with whatever succeeded. -/
def searchStage (caps : Capabilities) (run : WorkflowRun) : WorkflowRun :=
  let run := { run with stage := WStage.searching }
  let run :=
    match caps.news with
    | Except.ok rs =>
      { run with
          context := ctxAppend run.context ("search:news") (renderResults rs),
          traceLog := run.traceLog ++ [("Searching for company news...")] }
    | Except.error e =>
      { run with traceLog := run.traceLog ++ [("Search failed (news): ") ++ e] }
  match caps.overview with
  | Except.ok rs =>
    { run with
        context := ctxAppend run.context ("search:about") (renderResults rs),
        traceLog := run.traceLog ++ [("Searching for what the company does...")] }
  | Except.error e =>
    { run with traceLog := run.traceLog ++ [("Search failed (overview): ") ++ e] }

/-- Modelled from the spec §4.4: the Scrape Stage is a logged no-op without a
URL; a fetch failure is absorbed as a trace line; otherwise the bounded page
text is appended to the context. -/
def scrapeStage (caps : Capabilities) (run : WorkflowRun) : WorkflowRun :=
  let run := { run with stage := WStage.scraping }
  match run.input.url with
  | none =>
    { run with traceLog := run.traceLog ++ [("No URL provided; skipping scrape.")] }
  | some u =>
    match caps.fetchText with
    | Except.ok text =>
      { run with
          context :=
            ctxAppend run.context ("scrape:homepage") (text.take MAX_TEXT_CHARS),
          traceLog := run.traceLog ++ [("Scraped homepage: ") ++ u] }
    | Except.error e =>
      { run with traceLog := run.traceLog ++ [("Scrape failed: ") ++ e] }

/-- Modelled from the spec §4.5: the Draft Stage makes two sequential
generation calls — summarize over the rendered context, then compose the
email from the summary and the company name.  A failure of either call is
fatal: the run transitions to `Failed`, keeping every artifact accumulated so
far. -/
def draftStage (caps : Capabilities) (run : WorkflowRun) : WorkflowRun :=
  let run := { run with stage := WStage.drafting }
  match caps.summarize (renderForPrompt MAX_TEXT_CHARS run.context) with
  | Except.error e =>
    { run with stage := WStage.failed, outcome := Outcome.failed,
               failure := some (ErrorKind.generationError, e),
               traceLog := run.traceLog ++ [("Generation failed (summarize): ") ++ e] }
  | Except.ok s =>
    let run := { run with summary := some s,
                          traceLog := run.traceLog ++ [("Summarized research context.")] }
    match caps.compose (s ++ ("\n") ++ run.input.company) with
    | Except.error e =>
      { run with stage := WStage.failed, outcome := Outcome.failed,
                 failure := some (ErrorKind.generationError, e),
                 traceLog := run.traceLog ++ [("Generation failed (compose): ") ++ e] }
    | Except.ok d =>
      { run with emailDraft := some d, stage := WStage.awaitingApproval,
                 traceLog := run.traceLog ++ [("Drafted email.")] }

/-- Modelled from the spec §3: a fresh run for an input. -/
def initRun (input : WorkflowInput) : WorkflowRun :=
  { input := input, stage := WStage.idle, context := [], summary := none,
    emailDraft := none, traceLog := [], outcome := Outcome.pending,
    failure := none }

/-- Modelled from the spec §4.1: syntactic validity of an absolute URL. -/
def isAbsoluteUrl (u : String) : Bool :=
  u.startsWith ("http://") || u.startsWith ("https://")

/-- Modelled from the spec §4.1/§6/§7: `submit` validates the input first —
an empty company name (or a malformed URL) is rejected as `InvalidInput`
before any stage runs, with no trace lines emitted — and otherwise drives the
run through Search, Scrape and Draft up to the approval suspension point. -/
def submit (caps : Capabilities) (input : WorkflowInput) : WorkflowRun :=
  if input.company = ("") then
    { initRun input with
        stage := WStage.failed,
        outcome := Outcome.failed,
        failure := some (ErrorKind.invalidInput,
          ("Company name must not be empty.")) }
  else if (match input.url with
           | some u => !(isAbsoluteUrl u)
           | none => false) then
    { initRun input with
        stage := WStage.failed,
        outcome := Outcome.failed,
        failure := some (ErrorKind.invalidInput, ("URL must be absolute.")) }
  else
    draftStage caps (scrapeStage caps (searchStage caps (initRun input)))

/-- Modelled from the spec §3/§4.6: the external human decision. -/
structure ApprovalDecision where
  approved : Bool
  editedEmailDraft : Option String
deriving DecidableEq, Repr

/-- Modelled from the spec §4.7: the Send Stage performs the mocked delivery
and finalizes the run as `Sent`; on a run already `Sent` it is a no-op. -/
def sendStage (run : WorkflowRun) : WorkflowRun :=
  if run.stage = WStage.sent then run
  else
    { run with stage := WStage.sent,
               traceLog := run.traceLog ++ [("Mock send complete.")] }

/-- Modelled from the spec §4.6: delivering an `ApprovalDecision` into a run
suspended at the approval gate.  On `approved = true` an `editedEmailDraft`,
if supplied, replaces the drafted email verbatim and the Send Stage runs; on
`approved = false` the run becomes terminal `Rejected` and the Send Stage is
never invoked.  A run not suspended at the gate ignores the decision. -/
def deliverDecision (d : ApprovalDecision) (run : WorkflowRun) : WorkflowRun :=
  if run.stage ≠ WStage.awaitingApproval then run
  else if d.approved then
    let run :=
      { run with outcome := Outcome.approved,
                 emailDraft :=
                   match d.editedEmailDraft with
                   | some t => some t
                   | none => run.emailDraft,
                 traceLog := run.traceLog ++ [("Approved by operator.")] }
    sendStage { run with stage := WStage.sending }
  else
    { run with stage := WStage.rejected, outcome := Outcome.rejected,
               traceLog := run.traceLog ++ [("Rejected by operator.")] }

/-- **C2**: when a backend generation call raises inside the Draft Stage (the
one stage whose failure is fatal), the run transitions to `Failed` while
every artifact accumulated before the failure stays visible in the resulting
state: the research context and email draft are unchanged, the summary is
whatever had been produced before the raising call, and the existing trace
log lines are preserved in order (only extended, never discarded). -/
theorem draft_failure_preserves_artifacts (caps : Capabilities)
    (run : WorkflowRun) :
    (∀ e, caps.summarize (renderForPrompt MAX_TEXT_CHARS run.context) =
        Except.error e →
      (draftStage caps run).outcome = Outcome.failed ∧
      (draftStage caps run).context = run.context ∧
      (draftStage caps run).summary = run.summary ∧
      (draftStage caps run).emailDraft = run.emailDraft ∧
      ∃ t, (draftStage caps run).traceLog = run.traceLog ++ t) ∧
    (∀ s e, caps.summarize (renderForPrompt MAX_TEXT_CHARS run.context) =
        Except.ok s →
      caps.compose (s ++ ("\n") ++ run.input.company) = Except.error e →
      (draftStage caps run).outcome = Outcome.failed ∧
      (draftStage caps run).context = run.context ∧
      (draftStage caps run).summary = some s ∧
      (draftStage caps run).emailDraft = run.emailDraft ∧
      ∃ t, (draftStage caps run).traceLog = run.traceLog ++ t) := by
  constructor
  · intro e he
    refine ⟨?_, ?_, ?_, ?_,
      ⟨[("Generation failed (summarize): ") ++ e], ?_⟩⟩ <;>
      simp [draftStage, he]
  · intro s e hs he
    refine ⟨?_, ?_, ?_, ?_,
      ⟨[("Summarized research context."),
        ("Generation failed (compose): ") ++ e], ?_⟩⟩ <;>
      simp [draftStage, hs, he]

/-- Capabilities whose generation calls always fail: used to exercise the
failure path. -/
def capsSummarizeFail : Capabilities :=
  { news := Except.ok [], overview := Except.ok [], fetchText := Except.ok (""),
    summarize := fun _ => Except.error ("quota exceeded"),
    compose := fun _ => Except.error ("quota exceeded") }

/-- A run that has completed Search and Scrape, holding artifacts. -/
def runBeforeDraft : WorkflowRun :=
  { input := { company := ("Acme Corp"), url := none, provider := ("openai"),
               model := ("gpt-4o-mini") },
    stage := WStage.scraping,
    context := [(("search:news"), ("(no results)"))],
    summary := none, emailDraft := none,
    traceLog := [("Searching for company news...")],
    outcome := Outcome.pending, failure := none }

/-- Witness for C2: a concrete failing summarize call keeps the accumulated
context, draft and trace lines. -/
theorem draft_failure_preserves_artifacts_witness :
    (draftStage capsSummarizeFail runBeforeDraft).outcome = Outcome.failed ∧
    (draftStage capsSummarizeFail runBeforeDraft).context =
      runBeforeDraft.context ∧
    (draftStage capsSummarizeFail runBeforeDraft).summary =
      runBeforeDraft.summary ∧
    (draftStage capsSummarizeFail runBeforeDraft).emailDraft =
      runBeforeDraft.emailDraft ∧
    ∃ t, (draftStage capsSummarizeFail runBeforeDraft).traceLog =
      runBeforeDraft.traceLog ++ t :=
  (draft_failure_preserves_artifacts capsSummarizeFail runBeforeDraft).1
    ("quota exceeded") rfl

/-- Capabilities whose calls all succeed. -/
def capsOk : Capabilities :=
  { news := Except.ok [], overview := Except.ok [], fetchText := Except.ok (""),
    summarize := fun _ => Except.ok ("A summary."),
    compose := fun _ => Except.ok ("An email.") }

/-- **C3**: for every input whose company field is empty, `submit` fails with
`InvalidInput` before any stage executes — the resulting run is terminal
`Failed` with the invalid-input cause, an empty trace log, an empty research
context, and no summary or draft. -/
theorem submit_empty_company (caps : Capabilities) (input : WorkflowInput)
    (h : input.company = ("")) :
    (submit caps input).failure =
      some (ErrorKind.invalidInput, ("Company name must not be empty.")) ∧
    (submit caps input).outcome = Outcome.failed ∧
    (submit caps input).traceLog = [] ∧
    (submit caps input).context = [] ∧
    (submit caps input).summary = none ∧
    (submit caps input).emailDraft = none := by
  simp [submit, h, initRun]

/-- An input with an empty company field. -/
def emptyCompanyInput : WorkflowInput :=
  { company := (""), url := none, provider := ("openai"),
    model := ("gpt-4o-mini") }

/-- Witness for C3 at a concrete empty-company input. -/
theorem submit_empty_company_witness :
    (submit capsOk emptyCompanyInput).failure =
      some (ErrorKind.invalidInput, ("Company name must not be empty.")) ∧
    (submit capsOk emptyCompanyInput).outcome = Outcome.failed ∧
    (submit capsOk emptyCompanyInput).traceLog = [] ∧
    (submit capsOk emptyCompanyInput).context = [] ∧
    (submit capsOk emptyCompanyInput).summary = none ∧
    (submit capsOk emptyCompanyInput).emailDraft = none :=
  submit_empty_company capsOk emptyCompanyInput rfl

/-- **C6**: delivering `approved = false` into a run suspended at the
approval gate yields the terminal `Rejected` outcome, the email draft is
unchanged from the Draft Stage's output, and the Send Stage is never invoked
(the run does not reach `Sent` and no mock-send trace line appears). -/
theorem reject_terminates_without_send (run : WorkflowRun)
    (d : ApprovalDecision) (h : run.stage = WStage.awaitingApproval)
    (hd : d.approved = false) :
    (deliverDecision d run).outcome = Outcome.rejected ∧
    (deliverDecision d run).stage = WStage.rejected ∧
    (deliverDecision d run).emailDraft = run.emailDraft ∧
    (deliverDecision d run).traceLog =
      run.traceLog ++ [("Rejected by operator.")] ∧
    (deliverDecision d run).stage ≠ WStage.sent ∧
    (("Mock send complete.") ∉ run.traceLog →
      ("Mock send complete.") ∉ (deliverDecision d run).traceLog) := by
  simp [deliverDecision, h, hd]

/-- A run suspended at the approval gate with a drafted email. -/
def runAwaiting : WorkflowRun :=
  { input := { company := ("Acme Corp"), url := some ("https://acme.example"),
               provider := ("openai"), model := ("gpt-4o-mini") },
    stage := WStage.awaitingApproval,
    context := [(("search:news"), ("(no results)"))],
    summary := some ("A summary."), emailDraft := some ("An email."),
    traceLog := [("Drafted email.")],
    outcome := Outcome.pending, failure := none }

/-- The negative operator decision. -/
def rejectDecision : ApprovalDecision :=
  { approved := false, editedEmailDraft := none }

/-- Witness for C6 at a concrete suspended run. -/
theorem reject_terminates_without_send_witness :
    (deliverDecision rejectDecision runAwaiting).outcome = Outcome.rejected ∧
    (deliverDecision rejectDecision runAwaiting).stage = WStage.rejected ∧
    (deliverDecision rejectDecision runAwaiting).emailDraft =
      runAwaiting.emailDraft ∧
    (deliverDecision rejectDecision runAwaiting).traceLog =
      runAwaiting.traceLog ++ [("Rejected by operator.")] ∧
    (deliverDecision rejectDecision runAwaiting).stage ≠ WStage.sent ∧
    (("Mock send complete.") ∉ runAwaiting.traceLog →
      ("Mock send complete.") ∉
        (deliverDecision rejectDecision runAwaiting).traceLog) :=
  reject_terminates_without_send runAwaiting rejectDecision rfl rfl

/-- **C7**: whichever of the two search queries completes first, the merged
context is identical — the news-derived entry always precedes the
overview-derived entry — so `renderForPrompt` produces the same prompt for
either completion order. -/
theorem merge_order_deterministic (n o : String) (budget : Nat) :
    mergeSearchArrivals [(QueryTag.news, n), (QueryTag.overview, o)] =
      mergeSearchArrivals [(QueryTag.overview, o), (QueryTag.news, n)] ∧
    renderForPrompt budget
        (mergeSearchArrivals [(QueryTag.overview, o), (QueryTag.news, n)]) =
      renderForPrompt budget
        (mergeSearchArrivals [(QueryTag.news, n), (QueryTag.overview, o)]) ∧
    mergeSearchArrivals [(QueryTag.news, n), (QueryTag.overview, o)] =
      [(("search:news"), n), (("search:about"), o)] := by
  refine ⟨?_, ?_, ?_⟩ <;> simp [mergeSearchArrivals, List.filter]

end ResearcherAgent
